import Mathlib

/-!
# FreeNOS libposix `syslog.h`

A shallow embedding of `lib/libposix/syslog.h`: the severity, facility and
log-option constants of the header, and the three calls it declares
(`openlog`, `syslog`, `closelog`).

The header's constants are C `int` expressions `(1 << k)` with `k ≤ 16`; every
value is non-negative and far below `2 ^ 31`, so they are embedded as natural
numbers (the bound is itself proved below).  The bodies of the three calls are
not part of the header; they are modelled from the specification and marked so.
-/

namespace Syslog

/-! ## Constants of the header -/

/-- The C expression `(1 << k)` of the header's `#define` lines. -/
def bit (k : Nat) : Nat := 1 <<< k

/-- A panic condition. -/
def LOG_EMERG : Nat := bit 0
/-- A condition that should be corrected immediately. -/
def LOG_ALERT : Nat := bit 1
/-- Critical conditions, such as hard device errors. -/
def LOG_CRIT : Nat := bit 2
/-- Errors. -/
def LOG_ERR : Nat := bit 3
/-- Warning messages. -/
def LOG_WARNING : Nat := bit 4
/-- Conditions that are not error conditions but may require special handling. -/
def LOG_NOTICE : Nat := bit 5
/-- Informational messages. -/
def LOG_INFO : Nat := bit 6
/-- Messages normally of use only when debugging a program. -/
def LOG_DEBUG : Nat := bit 7

/-- Messages generated by arbitrary processes; the default facility. -/
def LOG_USER : Nat := bit 8
/-- Reserved for local use. -/
def LOG_LOCAL0 : Nat := bit 9
/-- Reserved for local use. -/
def LOG_LOCAL1 : Nat := bit 10
/-- Reserved for local use. -/
def LOG_LOCAL2 : Nat := bit 11
/-- Reserved for local use. -/
def LOG_LOCAL3 : Nat := bit 12
/-- Reserved for local use. -/
def LOG_LOCAL4 : Nat := bit 13
/-- Reserved for local use. -/
def LOG_LOCAL5 : Nat := bit 14
/-- Reserved for local use. -/
def LOG_LOCAL6 : Nat := bit 15
/-- Reserved for local use. -/
def LOG_LOCAL7 : Nat := bit 16

/-- Log the process ID with each message. -/
def LOG_PID : Nat := bit 0
/-- Write messages to the system console if they cannot be sent to the logging facility. -/
def LOG_CONS : Nat := bit 1
/-- Open the connection to the logging facility immediately. -/
def LOG_NDELAY : Nat := bit 2
/-- Delay open until syslog() is called. -/
def LOG_ODELAY : Nat := bit 3
/-- Do not wait for child processes created while logging the message. -/
def LOG_NOWAIT : Nat := bit 4

/-- The eight severity levels, in header order. -/
def severities : List Nat :=
  [LOG_EMERG, LOG_ALERT, LOG_CRIT, LOG_ERR, LOG_WARNING, LOG_NOTICE, LOG_INFO, LOG_DEBUG]

/-- The nine logging facilities, in header order. -/
def facilities : List Nat :=
  [LOG_USER, LOG_LOCAL0, LOG_LOCAL1, LOG_LOCAL2, LOG_LOCAL3, LOG_LOCAL4, LOG_LOCAL5,
   LOG_LOCAL6, LOG_LOCAL7]

/-- The five log options, in header order. -/
def logOptions : List Nat :=
  [LOG_PID, LOG_CONS, LOG_NDELAY, LOG_ODELAY, LOG_NOWAIT]

/-- The seventeen constants a priority is built from: severities, then facilities. -/
def priorityConstants : List Nat := severities ++ facilities

/-- All twenty-two `#define` values of the header, in header order. -/
def headerConstants : List Nat := severities ++ facilities ++ logOptions

/-- The shift count `k` of each `(1 << k)` of the header, in header order. -/
def headerShifts : List Nat :=
  [0, 1, 2, 3, 4, 5, 6, 7, 8, 9, 10, 11, 12, 13, 14, 15, 16, 0, 1, 2, 3, 4]

/-- The bitwise OR of a collection of flags (C `a | b | ...`; the empty OR is 0). -/
def orAll : List Nat → Nat
  | [] => 0
  | x :: xs => x ||| orAll xs

/-- The bits a facility may occupy: `LOG_USER | LOG_LOCAL0 | ... | LOG_LOCAL7`. -/
def facilityMask : Nat :=
  LOG_USER ||| LOG_LOCAL0 ||| LOG_LOCAL1 ||| LOG_LOCAL2 ||| LOG_LOCAL3 ||| LOG_LOCAL4 |||
    LOG_LOCAL5 ||| LOG_LOCAL6 ||| LOG_LOCAL7

/-- The recognised option bits: `LOG_PID | LOG_CONS | LOG_NDELAY | LOG_ODELAY | LOG_NOWAIT`. -/
def optionMask : Nat :=
  LOG_PID ||| LOG_CONS ||| LOG_NDELAY ||| LOG_ODELAY ||| LOG_NOWAIT

/-! ## The logging session

The header declares the two pieces of process-wide state (`logIdentity`,
`logFile`) and the three calls, without bodies.  The definitions below follow
the specification's data model (section 3), component design (section 4.1),
external interfaces (section 6) and error taxonomy (section 7). -/

/-- Modelled from the spec: the LogSession of section 3.  `logIdentity` and `logFile`
are the header's two externs (the optional identity tag and the optional transport
handle); `options` and `facilityDefault` are the two further fields the spec gives the
session, which the header does not declare. -/
structure LogSession where
  logIdentity : Option String
  logFile : Option Nat
  options : Nat
  facilityDefault : Nat
deriving DecidableEq, Repr

/-- Modelled from the spec: the session at process start, "all fields at safe defaults"
(section 3): no identity, no transport handle, no option set, facility `LOG_USER`
(the header's "default facility identifier if none is specified"). -/
def LogSession.initial : LogSession :=
  { logIdentity := none, logFile := none, options := 0, facilityDefault := LOG_USER }

/-- Modelled from the spec: the external collaborators of section 6 as they answer
during one call, which the header does not declare: the descriptor an open of the log
device yields (`none` when the open fails), whether a write to the log device succeeds,
whether a write to the console device succeeds, and the calling process's id. -/
structure Env where
  openResult : Option Nat
  writeOk : Bool
  consoleOk : Bool
  pid : Nat
deriving DecidableEq, Repr

/-- Modelled from the spec: the effects of a call that reach the outside (section 6):
a transport handle opened, a transport handle closed, a line delivered to the log
transport (tagged with the priority applied to it), a line delivered to the console. -/
inductive Event where
  | opened (fd : Nat)
  | closed (fd : Nat)
  | logged (priority : Nat) (line : String)
  | console (line : String)
deriving DecidableEq, Repr

/-- Modelled from the spec: the open attempt on the log transport, absent from the
header.  Section 4.1: "idempotent if already open"; state machine
`CLOSED → (open attempt, success) → OPEN`, `CLOSED → (open attempt, failure) → CLOSED`. -/
def openTransport (s : LogSession) (env : Env) : LogSession × List Event :=
  match s.logFile with
  | some _ => (s, [])
  | none =>
    match env.openResult with
    | some fd => ({ s with logFile := some fd }, [Event.opened fd])
    | none => (s, [])

/-- Modelled from the spec: the body of `openlog`, which the header only declares.
Section 4.1: stores identity, options and facility in the session (facility "default
`USER` if zero/unspecified"; unrecognised bits are masked off, section 7) and, if
`NDELAY` is set, immediately attempts to open the transport; a failed open is not
fatal. -/
def openlog (s : LogSession) (ident : Option String) (logopt facility : Nat) (env : Env) :
    LogSession × List Event :=
  let s1 : LogSession :=
    { s with
      logIdentity := ident
      options := logopt &&& optionMask
      facilityDefault :=
        if facility &&& facilityMask = 0 then LOG_USER else facility &&& facilityMask }
  if s1.options &&& LOG_NDELAY ≠ 0 then openTransport s1 env else (s1, [])

/-- Modelled from the spec: the priority a message is logged with, absent from the
header.  Section 4.1: "if facility bits are absent, `facilityDefault` is applied". -/
def effectivePriority (s : LogSession) (priority : Nat) : Nat :=
  if priority &&& facilityMask = 0 then priority ||| s.facilityDefault else priority

/-- Modelled from the spec: the composition of the logged line, absent from the header.
Section 4.1 step 2 and the wire format of section 6:
`[identity][: pid][: ]<formatted message>`, terminated by a single newline.  `body` is
the message after the formatting primitive has been applied to the format and its
arguments. -/
def compose (s : LogSession) (pid : Nat) (body : String) : String :=
  let ident := s.logIdentity.getD ""
  let pidPart := if s.options &&& LOG_PID ≠ 0 then ": " ++ toString pid else ""
  let sep := if s.logIdentity.isSome = true ∨ s.options &&& LOG_PID ≠ 0 then ": " else ""
  ident ++ pidPart ++ sep ++ body ++ "\n"

/-- Modelled from the spec: the console fallback, absent from the header.  Section 4.1
step 4 and section 7: the composed message goes to the console if `CONS` is set; if the
console is unavailable as well, the message is dropped. -/
def fallback (s : LogSession) (env : Env) (line : String) : List Event :=
  if s.options &&& LOG_CONS ≠ 0 ∧ env.consoleOk = true then [Event.console line] else []

/-- Modelled from the spec: the body of `syslog`, which the header only declares.
Section 4.1: (1) if no transport is open, attempt to open it, on every call;
(2) compose the message; (3) write it as one unit to the transport; (4) if the open or
the write fails, fall back to the console.  No error reaches the caller: the result is
always a session and the effects produced. -/
def syslog (s : LogSession) (priority : Nat) (body : String) (env : Env) :
    LogSession × List Event :=
  let r := openTransport s env
  let line := compose r.1 env.pid body
  match r.1.logFile with
  | some _ =>
    if env.writeOk = true then
      (r.1, r.2 ++ [Event.logged (effectivePriority r.1 priority) line])
    else
      (r.1, r.2 ++ fallback r.1 env line)
  | none => (r.1, r.2 ++ fallback r.1 env line)

/-- Modelled from the spec: the body of `closelog`, which the header only declares.
Section 4.1: it releases the transport handle if one is open (with no transport open
nothing is closed) and resets identity to unset and options and facilityDefault to
their initial defaults; section 3: it "resets session state to defaults". -/
def closelog (s : LogSession) : LogSession × List Event :=
  match s.logFile with
  | none => (LogSession.initial, [])
  | some fd => (LogSession.initial, [Event.closed fd])

/-- One `syslog` request together with the environment it runs in. -/
structure LogCall where
  priority : Nat
  body : String
  env : Env
deriving DecidableEq, Repr

/-- The calls of `calls` issued in order, each through `syslog`, with the effects
concatenated. -/
def syslogAll (s : LogSession) : List LogCall → LogSession × List Event
  | [] => (s, [])
  | c :: cs =>
    let r := syslog s c.priority c.body c.env
    let r2 := syslogAll r.1 cs
    (r2.1, r.2 ++ r2.2)

/-- The sequence `openlog` → N × `syslog` → `closelog` from session `s`. -/
def session (s : LogSession) (ident : Option String) (logopt facility : Nat) (envOpen : Env)
    (calls : List LogCall) : LogSession × List Event :=
  let r1 := openlog s ident logopt facility envOpen
  let r2 := syslogAll r1.1 calls
  let r3 := closelog r2.1
  (r3.1, r1.2 ++ r2.2 ++ r3.2)

/-- Whether an effect is the opening of a transport handle. -/
def Event.isOpened : Event → Bool
  | .opened _ => true
  | _ => false

/-- Whether an effect is the closing of a transport handle. -/
def Event.isClosed : Event → Bool
  | .closed _ => true
  | _ => false

/-- Whether an effect is a line delivered to the transport or to the console. -/
def Event.isWrite : Event → Bool
  | .logged _ _ => true
  | .console _ => true
  | _ => false

/-- How many times a transport handle was opened in a run. -/
def opens (evs : List Event) : Nat := evs.countP Event.isOpened

/-- How many times a transport handle was closed in a run. -/
def closes (evs : List Event) : Nat := evs.countP Event.isClosed

/-- The lines a run delivered, to the transport or to the console, in order. -/
def writes (evs : List Event) : List Event := evs.filter Event.isWrite

/-- The number of transport handles a session holds: 0 or 1. -/
def held (s : LogSession) : Nat :=
  match s.logFile with
  | some _ => 1
  | none => 0

/-- The primary transport cannot be opened or written during a call: no handle is open
and the open fails, or the write fails. -/
def primaryFails (s : LogSession) (env : Env) : Prop :=
  (s.logFile = none ∧ env.openResult = none) ∨ env.writeOk = false

instance (s : LogSession) (env : Env) : Decidable (primaryFails s env) := by
  unfold primaryFails
  infer_instance

/-! ## Sample environments and sessions -/

/-- An environment in which every collaborator works: the log device opens as
descriptor 3, writes to it and to the console succeed; the process id is 7. -/
def envUp : Env := { openResult := some 3, writeOk := true, consoleOk := true, pid := 7 }

/-- An environment in which the log device cannot be opened; the console works. -/
def envNoLog : Env := { openResult := none, writeOk := true, consoleOk := true, pid := 7 }

/-- An environment in which neither the log device nor the console is available. -/
def envDown : Env := { openResult := none, writeOk := false, consoleOk := false, pid := 7 }

/-- A session configured by `openlog("initd", LOG_PID | LOG_CONS, LOG_LOCAL0)` whose
transport has not been opened. -/
def initdSession : LogSession :=
  { logIdentity := some "initd", logFile := none, options := LOG_PID ||| LOG_CONS,
    facilityDefault := LOG_LOCAL0 }

/-! ## Bitwise helper lemmas -/

theorem land_lor_distrib_right (a b g : Nat) :
    (a ||| b) &&& g = (a &&& g) ||| (b &&& g) := by
  apply Nat.eq_of_testBit_eq
  intro i
  simp [Bool.and_or_distrib_right]

theorem lor_eq_zero_iff (a b : Nat) : a ||| b = 0 ↔ a = 0 ∧ b = 0 := by
  constructor
  · intro h
    have key : ∀ i, (a.testBit i || b.testBit i) = false := by
      intro i
      rw [← Nat.testBit_or, h, Nat.zero_testBit]
    constructor
    · apply Nat.eq_of_testBit_eq
      intro i
      have hi := key i
      simp only [Bool.or_eq_false_iff] at hi
      simp [hi.1]
    · apply Nat.eq_of_testBit_eq
      intro i
      have hi := key i
      simp only [Bool.or_eq_false_iff] at hi
      simp [hi.2]
  · rintro ⟨rfl, rfl⟩
    rfl

theorem severity_facility_split :
    ∀ s ∈ severities, ∀ f ∈ facilities,
      (s ||| f) &&& 0xFF = s ∧ (s ||| f) &&& 0x1FF00 = f := by
  decide

theorem option_bit_test :
    ∀ x ∈ logOptions, ∀ g ∈ logOptions, (x &&& g ≠ 0 ↔ g = x) := by
  decide

theorem orAll_land_ne_zero (S : List Nat) (hS : ∀ x ∈ S, x ∈ logOptions)
    (g : Nat) (hg : g ∈ logOptions) : orAll S &&& g ≠ 0 ↔ g ∈ S := by
  induction S with
  | nil => simp [orAll]
  | cons x xs ih =>
    have hx : x ∈ logOptions := hS x (List.mem_cons_self x xs)
    have hxs : ∀ y ∈ xs, y ∈ logOptions := fun y hy => hS y (List.mem_cons_of_mem x hy)
    have hhead := option_bit_test x hx g hg
    have htail := ih hxs
    rw [orAll, land_lor_distrib_right, Ne, lor_eq_zero_iff, List.mem_cons]
    constructor
    · intro h
      by_cases h0 : x &&& g = 0
      · right
        exact htail.mp (fun h1 => h ⟨h0, h1⟩)
      · left
        exact hhead.mp h0
    · rintro (h | h) hz
      · exact (hhead.mpr h) hz.1
      · exact (htail.mpr h) hz.2

theorem orAll_lt_two_pow (n : Nat) (S : List Nat) (hS : ∀ x ∈ S, x < 2 ^ n) :
    orAll S < 2 ^ n := by
  induction S with
  | nil => simp [orAll]
  | cons x xs ih =>
    rw [orAll]
    exact Nat.or_lt_two_pow (hS x (List.mem_cons_self x xs))
      (ih (fun y hy => hS y (List.mem_cons_of_mem x hy)))

theorem priorityConstants_lt : ∀ x ∈ priorityConstants, x < 2 ^ 17 := by
  decide


/-! ## Session lemmas -/

theorem opens_append (a b : List Event) : opens (a ++ b) = opens a + opens b := by
  simp [opens, List.countP_append]

theorem closes_append (a b : List Event) : closes (a ++ b) = closes a + closes b := by
  simp [closes, List.countP_append]

theorem writes_append (a b : List Event) : writes (a ++ b) = writes a ++ writes b := by
  simp [writes, List.filter_append]

theorem fallback_counts (s : LogSession) (env : Env) (line : String) :
    opens (fallback s env line) = 0 ∧ closes (fallback s env line) = 0 := by
  unfold fallback
  split <;> simp [opens, closes, Event.isOpened, Event.isClosed]

theorem openTransport_counts (s : LogSession) (env : Env) :
    held s + opens (openTransport s env).2 = held (openTransport s env).1 ∧
      closes (openTransport s env).2 = 0 ∧ writes (openTransport s env).2 = [] := by
  obtain ⟨i, f, o, d⟩ := s
  obtain ⟨r, w, c, p⟩ := env
  cases f <;> cases r <;>
    simp [openTransport, held, opens, closes, writes, Event.isOpened, Event.isClosed,
      Event.isWrite]

theorem openTransport_config (s : LogSession) (env : Env) :
    (openTransport s env).1.logIdentity = s.logIdentity ∧
      (openTransport s env).1.options = s.options ∧
      (openTransport s env).1.facilityDefault = s.facilityDefault := by
  obtain ⟨i, f, o, d⟩ := s
  obtain ⟨r, w, c, p⟩ := env
  cases f <;> cases r <;> simp [openTransport]

theorem syslog_eq (s : LogSession) (priority : Nat) (body : String) (env : Env) :
    syslog s priority body env =
      ((openTransport s env).1,
        (openTransport s env).2 ++
          (if (openTransport s env).1.logFile ≠ none ∧ env.writeOk = true then
            [Event.logged (effectivePriority (openTransport s env).1 priority)
              (compose (openTransport s env).1 env.pid body)]
          else
            fallback (openTransport s env).1 env
              (compose (openTransport s env).1 env.pid body))) := by
  unfold syslog
  simp only
  cases h : (openTransport s env).1.logFile <;> cases hw : env.writeOk <;> simp

theorem syslog_counts (s : LogSession) (priority : Nat) (body : String) (env : Env) :
    held s + opens (syslog s priority body env).2 = held (syslog s priority body env).1 ∧
      closes (syslog s priority body env).2 = 0 := by
  obtain ⟨h1, h2, _⟩ := openTransport_counts s env
  rw [syslog_eq]
  simp only [opens_append, closes_append]
  split
  · have e1 : ∀ p l, opens [Event.logged p l] = 0 := fun _ _ => rfl
    have e2 : ∀ p l, closes [Event.logged p l] = 0 := fun _ _ => rfl
    rw [e1, e2]
    omega
  · rw [(fallback_counts _ _ _).1, (fallback_counts _ _ _).2]
    omega

theorem syslogAll_counts (calls : List LogCall) :
    ∀ s : LogSession, held s + opens (syslogAll s calls).2 = held (syslogAll s calls).1 ∧
      closes (syslogAll s calls).2 = 0 := by
  induction calls with
  | nil =>
    intro s
    simp [syslogAll, opens, closes]
  | cons c cs ih =>
    intro s
    have h1 := syslog_counts s c.priority c.body c.env
    have h2 := ih (syslog s c.priority c.body c.env).1
    simp only [syslogAll, opens_append, closes_append]
    omega

theorem openlog_counts (s : LogSession) (ident : Option String) (logopt facility : Nat)
    (env : Env) :
    held s + opens (openlog s ident logopt facility env).2
        = held (openlog s ident logopt facility env).1 ∧
      closes (openlog s ident logopt facility env).2 = 0 := by
  unfold openlog
  simp only
  split
  · have h := openTransport_counts
      { s with
        logIdentity := ident
        options := logopt &&& optionMask
        facilityDefault :=
          if facility &&& facilityMask = 0 then LOG_USER else facility &&& facilityMask } env
    exact ⟨h.1, h.2.1⟩
  · simp [opens, closes, held]

theorem closelog_counts (s : LogSession) :
    opens (closelog s).2 = 0 ∧ closes (closelog s).2 = held s ∧
      (closelog s).1.logFile = none := by
  obtain ⟨i, f, o, d⟩ := s
  cases f <;>
    simp [closelog, held, opens, closes, Event.isOpened, Event.isClosed, LogSession.initial]

theorem held_le_one (s : LogSession) : held s ≤ 1 := by
  unfold held
  split <;> simp

theorem compose_openTransport (s : LogSession) (env : Env) (pid : Nat) (body : String) :
    compose (openTransport s env).1 pid body = compose s pid body := by
  obtain ⟨h1, h2, _⟩ := openTransport_config s env
  unfold compose
  rw [h1, h2]

theorem effectivePriority_openTransport (s : LogSession) (env : Env) (priority : Nat) :
    effectivePriority (openTransport s env).1 priority = effectivePriority s priority := by
  obtain ⟨_, _, h3⟩ := openTransport_config s env
  unfold effectivePriority
  rw [h3]

theorem fallback_openTransport (s : LogSession) (env env' : Env) (line : String) :
    fallback (openTransport s env).1 env' line = fallback s env' line := by
  obtain ⟨_, h2, _⟩ := openTransport_config s env
  unfold fallback
  rw [h2]

theorem writes_fallback (s : LogSession) (env : Env) (line : String) :
    writes (fallback s env line) = fallback s env line := by
  unfold fallback
  split <;> simp [writes, Event.isWrite]

theorem openTransport_logFile_ne_none (s : LogSession) (env : Env) :
    (openTransport s env).1.logFile ≠ none ↔ ¬ (s.logFile = none ∧ env.openResult = none) := by
  obtain ⟨i, f, o, d⟩ := s
  obtain ⟨r, w, c, p⟩ := env
  cases f <;> cases r <;> simp [openTransport]

theorem syslog_writes (s : LogSession) (priority : Nat) (body : String) (env : Env) :
    writes (syslog s priority body env).2 =
      if primaryFails s env then fallback s env (compose s env.pid body)
      else [Event.logged (effectivePriority s priority) (compose s env.pid body)] := by
  rw [syslog_eq, writes_append, (openTransport_counts s env).2.2, List.nil_append,
    compose_openTransport, effectivePriority_openTransport, fallback_openTransport]
  have hopen := openTransport_logFile_ne_none s env
  by_cases hp : primaryFails s env
  · rw [if_pos hp]
    have hc : ¬ ((openTransport s env).1.logFile ≠ none ∧ env.writeOk = true) := by
      unfold primaryFails at hp
      rintro ⟨h1, h2⟩
      rcases hp with hp | hp
      · exact hopen.mp h1 hp
      · rw [h2] at hp
        exact Bool.noConfusion hp
    rw [if_neg hc, writes_fallback]
  · rw [if_neg hp]
    have hc : (openTransport s env).1.logFile ≠ none ∧ env.writeOk = true := by
      unfold primaryFails at hp
      constructor
      · exact hopen.mpr (fun h => hp (Or.inl h))
      · cases hw : env.writeOk
        · exact absurd (Or.inr hw) hp
        · rfl
    rw [if_pos hc]
    rfl

/-! ## The claims -/

/-- C1: a priority formed by OR'ing a severity `s` with a facility `f` decomposes
uniquely: `(s | f) & 0xFF = s`, `(s | f) & 0x1FF00 = f`, and `(s | f) = (s' | f')` implies
`s = s'` and `f = f'`, for all severities `s`, `s'` and facilities `f`, `f'` of the
header. -/
theorem priority_decomposes (s f s' f' : Nat) (hs : s ∈ severities) (hf : f ∈ facilities)
    (hs' : s' ∈ severities) (hf' : f' ∈ facilities) :
    (s ||| f) &&& 0xFF = s ∧ (s ||| f) &&& 0x1FF00 = f ∧
      (s ||| f = s' ||| f' → s = s' ∧ f = f') := by
  obtain ⟨h1, h2⟩ := severity_facility_split s hs f hf
  obtain ⟨h3, h4⟩ := severity_facility_split s' hs' f' hf'
  refine ⟨h1, h2, fun h => ⟨?_, ?_⟩⟩
  · calc s = (s ||| f) &&& 0xFF := h1.symm
      _ = (s' ||| f') &&& 0xFF := by rw [h]
      _ = s' := h3
  · calc f = (s ||| f) &&& 0x1FF00 := h2.symm
      _ = (s' ||| f') &&& 0x1FF00 := by rw [h]
      _ = f' := h4

/-- C1 at the concrete priorities `LOG_INFO | LOG_LOCAL0` and `LOG_ERR | LOG_USER`. -/
theorem priority_decomposes_witness :
    (LOG_INFO ∈ severities ∧ LOG_LOCAL0 ∈ facilities ∧ LOG_ERR ∈ severities ∧
      LOG_USER ∈ facilities) ∧
    ((LOG_INFO ||| LOG_LOCAL0) &&& 0xFF = LOG_INFO ∧
      (LOG_INFO ||| LOG_LOCAL0) &&& 0x1FF00 = LOG_LOCAL0 ∧
      (LOG_INFO ||| LOG_LOCAL0 = LOG_ERR ||| LOG_USER →
        LOG_INFO = LOG_ERR ∧ LOG_LOCAL0 = LOG_USER)) :=
  ⟨by decide,
    priority_decomposes LOG_INFO LOG_LOCAL0 LOG_ERR LOG_USER (by decide) (by decide)
      (by decide) (by decide)⟩

/-- C2: an omitted facility is detectable and distinct from every defined facility: every
facility constant `f` is non-zero, every severity `s` has no facility bit
(`s & (LOG_USER | LOG_LOCAL0 | ... | LOG_LOCAL7) = 0`), so the facility field of `s`
alone equals neither `f` nor the default `LOG_USER`, and no priority with a zero facility
field has `f` as its facility field. -/
theorem omitted_facility_detectable (s f : Nat) (hs : s ∈ severities) (hf : f ∈ facilities) :
    f ≠ 0 ∧ s &&& facilityMask = 0 ∧ s &&& facilityMask ≠ f ∧
      s &&& facilityMask ≠ LOG_USER ∧
      ∀ p : Nat, p &&& facilityMask = 0 → p &&& facilityMask ≠ f := by
  have hf0 : f ≠ 0 := (by decide : ∀ x ∈ facilities, x ≠ 0) f hf
  have hs0 : s &&& facilityMask = 0 :=
    (by decide : ∀ x ∈ severities, x &&& facilityMask = 0) s hs
  refine ⟨hf0, hs0, ?_, ?_, ?_⟩
  · rw [hs0]
    exact fun h => hf0 h.symm
  · rw [hs0]
    decide
  · intro p hp
    rw [hp]
    exact fun h => hf0 h.symm

/-- C2 at the severity `LOG_WARNING` and the facility `LOG_LOCAL7`. -/
theorem omitted_facility_detectable_witness :
    (LOG_WARNING ∈ severities ∧ LOG_LOCAL7 ∈ facilities) ∧
    (LOG_LOCAL7 ≠ 0 ∧ LOG_WARNING &&& facilityMask = 0 ∧
      LOG_WARNING &&& facilityMask ≠ LOG_LOCAL7 ∧ LOG_WARNING &&& facilityMask ≠ LOG_USER ∧
      ∀ p : Nat, p &&& facilityMask = 0 → p &&& facilityMask ≠ LOG_LOCAL7) :=
  ⟨by decide, omitted_facility_detectable LOG_WARNING LOG_LOCAL7 (by decide) (by decide)⟩

/-- C3: the log options form a faithful bit set: the five option constants are the
pairwise distinct single-bit values `1 << 0 .. 1 << 4`, so for every collection `S` of
them with `opts` the bitwise OR of `S`, and every option `g`, `(opts & g) != 0` if and only
if `g` is in `S`. -/
theorem options_faithful_bitset (S : List Nat) (hS : ∀ x ∈ S, x ∈ logOptions) (g : Nat)
    (hg : g ∈ logOptions) :
    logOptions.Nodup ∧ logOptions = (List.range 5).map (fun k => 1 <<< k) ∧
      (orAll S &&& g ≠ 0 ↔ g ∈ S) :=
  ⟨by decide, by decide, orAll_land_ne_zero S hS g hg⟩

/-- C3 at the option set `LOG_PID | LOG_NDELAY`, tested for `LOG_CONS`. -/
theorem options_faithful_bitset_witness :
    ((∀ x ∈ [LOG_PID, LOG_NDELAY], x ∈ logOptions) ∧ LOG_CONS ∈ logOptions) ∧
    (logOptions.Nodup ∧ logOptions = (List.range 5).map (fun k => 1 <<< k) ∧
      (orAll [LOG_PID, LOG_NDELAY] &&& LOG_CONS ≠ 0 ↔ LOG_CONS ∈ [LOG_PID, LOG_NDELAY])) :=
  ⟨by decide, options_faithful_bitset [LOG_PID, LOG_NDELAY] (by decide) LOG_CONS (by decide)⟩

/-- C4 (as stated, refuted): `openlog(NULL, 0, LOG_USER)` followed by no `syslog` call and
`closelog`, in an environment where the log device would open, opens nothing (the open
is lazy) and therefore closes nothing; and `openlog(NULL, LOG_NDELAY, LOG_USER)`, two
`syslog` calls and `closelog` with the log device unavailable never obtain a handle and
close nothing.  In neither run is the handle "closed exactly once". -/
theorem session_closed_exactly_once_fails :
    ¬ (opens (session LogSession.initial none 0 LOG_USER envUp []).2 ≤ 1 ∧
        closes (session LogSession.initial none 0 LOG_USER envUp []).2 = 1) ∧
    ¬ (opens (session LogSession.initial none LOG_NDELAY LOG_USER envNoLog
          [⟨LOG_ERR, "a", envNoLog⟩, ⟨LOG_INFO, "b", envDown⟩]).2 ≤ 1 ∧
        closes (session LogSession.initial none LOG_NDELAY LOG_USER envNoLog
          [⟨LOG_ERR, "a", envNoLog⟩, ⟨LOG_INFO, "b", envDown⟩]).2 = 1) := by
  decide

/-- C4 (amended): for every sequence `openlog`, then N calls of `syslog` (any N ≥ 0, in any
environments), then `closelog`, started with no transport handle open, the handle is
opened at most once and closed exactly as many times as it was opened (once if an open
succeeded, not at all otherwise), and no handle is open afterwards: no leak and no
double close. -/
theorem session_open_close_balanced (s : LogSession) (ident : Option String)
    (logopt facility : Nat) (envOpen : Env) (calls : List LogCall) (h : s.logFile = none) :
    opens (session s ident logopt facility envOpen calls).2 ≤ 1 ∧
      closes (session s ident logopt facility envOpen calls).2
        = opens (session s ident logopt facility envOpen calls).2 ∧
      (session s ident logopt facility envOpen calls).1.logFile = none := by
  have h0 : held s = 0 := by
    unfold held
    rw [h]
  obtain ⟨a1, a2⟩ := openlog_counts s ident logopt facility envOpen
  obtain ⟨b1, b2⟩ := syslogAll_counts calls (openlog s ident logopt facility envOpen).1
  obtain ⟨c1, c2, c3⟩ :=
    closelog_counts (syslogAll (openlog s ident logopt facility envOpen).1 calls).1
  have hle := held_le_one (syslogAll (openlog s ident logopt facility envOpen).1 calls).1
  simp only [session, opens_append, closes_append]
  refine ⟨?_, ?_, c3⟩ <;> omega

/-- C4 (amended) at `openlog("initd", LOG_NDELAY | LOG_PID, LOG_USER)`, one delivered and one
dropped `syslog`, then `closelog`, from the session at process start. -/
theorem session_open_close_balanced_witness :
    LogSession.initial.logFile = none ∧
    (opens (session LogSession.initial (some "initd") (LOG_NDELAY ||| LOG_PID) LOG_USER envUp
        [⟨LOG_INFO, "started pid=42", envUp⟩, ⟨LOG_ERR, "oops", envDown⟩]).2 ≤ 1 ∧
      closes (session LogSession.initial (some "initd") (LOG_NDELAY ||| LOG_PID) LOG_USER envUp
        [⟨LOG_INFO, "started pid=42", envUp⟩, ⟨LOG_ERR, "oops", envDown⟩]).2
        = opens (session LogSession.initial (some "initd") (LOG_NDELAY ||| LOG_PID) LOG_USER
            envUp [⟨LOG_INFO, "started pid=42", envUp⟩, ⟨LOG_ERR, "oops", envDown⟩]).2 ∧
      (session LogSession.initial (some "initd") (LOG_NDELAY ||| LOG_PID) LOG_USER envUp
        [⟨LOG_INFO, "started pid=42", envUp⟩, ⟨LOG_ERR, "oops", envDown⟩]).1.logFile = none) :=
  ⟨rfl,
    session_open_close_balanced LogSession.initial (some "initd") (LOG_NDELAY ||| LOG_PID)
      LOG_USER envUp [⟨LOG_INFO, "started pid=42", envUp⟩, ⟨LOG_ERR, "oops", envDown⟩] rfl⟩

/-- C5: `syslog` called before any `openlog` behaves as if `openlog(NULL, 0, LOG_USER)` had
been called first: on the session as it is at process start that `openlog` changes
nothing and produces no effect, so for every priority, message and environment the
resulting session state and the emitted output of `syslog` are the same in both runs. -/
theorem syslog_before_openlog (envOpen env : Env) (priority : Nat) (body : String) :
    openlog LogSession.initial none 0 LOG_USER envOpen = (LogSession.initial, []) ∧
      syslog (openlog LogSession.initial none 0 LOG_USER envOpen).1 priority body env
        = syslog LogSession.initial priority body env := by
  have e : openlog LogSession.initial none 0 LOG_USER envOpen = (LogSession.initial, []) := by
    have e1 : (0 : Nat) &&& optionMask = 0 := by decide
    have e2 : ¬ (LOG_USER &&& facilityMask = 0) := by decide
    have e3 : LOG_USER &&& facilityMask = LOG_USER := by decide
    have e4 : (0 : Nat) &&& LOG_NDELAY = 0 := by decide
    simp [openlog, LogSession.initial, e1, e2, e3, e4]
  exact ⟨e, by rw [e]⟩

/-- C6 (as stated, refuted): with `LOG_CONS` set, the log device unavailable and the
console unavailable as well, `syslog` delivers nothing to the console: the composed
message is dropped, so the console write does not happen "exactly when LOG_CONS is
set". -/
theorem console_fallback_always_fails :
    ¬ (primaryFails initdSession envDown →
        (Event.console (compose initdSession envDown.pid "disk full")
            ∈ (syslog initdSession LOG_ERR "disk full" envDown).2
          ↔ initdSession.options &&& LOG_CONS ≠ 0)) := by
  decide

/-- C6 (amended): when the primary transport cannot be opened or written, `syslog` delivers
the composed message to the console exactly when `LOG_CONS` is set in the session options
and the console accepts the write, and delivers nothing else; the line is the one
the transport receives when it works (same formatted content); when `LOG_CONS` is unset
nothing is written anywhere; in every case `syslog` returns a session whose identity,
options and default facility are untouched, with no error channel towards the caller. -/
theorem syslog_console_fallback (s : LogSession) (priority : Nat) (body : String) (env : Env)
    (hfail : primaryFails s env) :
    writes (syslog s priority body env).2
        = (if s.options &&& LOG_CONS ≠ 0 ∧ env.consoleOk = true then
            [Event.console (compose s env.pid body)] else []) ∧
      (s.options &&& LOG_CONS = 0 → writes (syslog s priority body env).2 = []) ∧
      (∀ env' : Env, env'.pid = env.pid → ¬ primaryFails s env' →
        writes (syslog s priority body env').2
          = [Event.logged (effectivePriority s priority) (compose s env.pid body)]) ∧
      (syslog s priority body env).1.logIdentity = s.logIdentity ∧
      (syslog s priority body env).1.options = s.options ∧
      (syslog s priority body env).1.facilityDefault = s.facilityDefault := by
  have hw : writes (syslog s priority body env).2
      = (if s.options &&& LOG_CONS ≠ 0 ∧ env.consoleOk = true then
          [Event.console (compose s env.pid body)] else []) := by
    rw [syslog_writes, if_pos hfail]
    rfl
  obtain ⟨c1, c2, c3⟩ := openTransport_config s env
  refine ⟨hw, ?_, ?_, ?_, ?_, ?_⟩
  · intro h0
    rw [hw, if_neg]
    exact fun h => h.1 h0
  · intro env' hpid hok
    rw [syslog_writes, if_neg hok, hpid]
  · rw [syslog_eq]
    exact c1
  · rw [syslog_eq]
    exact c2
  · rw [syslog_eq]
    exact c3

/-- C6 (amended) at a session with `LOG_CONS` set, the log device unavailable and the console
available. -/
theorem syslog_console_fallback_witness :
    primaryFails initdSession envNoLog ∧
    (writes (syslog initdSession LOG_ERR "disk full" envNoLog).2
        = (if initdSession.options &&& LOG_CONS ≠ 0 ∧ envNoLog.consoleOk = true then
            [Event.console (compose initdSession envNoLog.pid "disk full")] else []) ∧
      (initdSession.options &&& LOG_CONS = 0 →
        writes (syslog initdSession LOG_ERR "disk full" envNoLog).2 = []) ∧
      (∀ env' : Env, env'.pid = envNoLog.pid → ¬ primaryFails initdSession env' →
        writes (syslog initdSession LOG_ERR "disk full" env').2
          = [Event.logged (effectivePriority initdSession LOG_ERR)
              (compose initdSession envNoLog.pid "disk full")]) ∧
      (syslog initdSession LOG_ERR "disk full" envNoLog).1.logIdentity
        = initdSession.logIdentity ∧
      (syslog initdSession LOG_ERR "disk full" envNoLog).1.options = initdSession.options ∧
      (syslog initdSession LOG_ERR "disk full" envNoLog).1.facilityDefault
        = initdSession.facilityDefault) :=
  ⟨by decide, syslog_console_fallback initdSession LOG_ERR "disk full" envNoLog (by decide)⟩

/-- C7 (as stated, refuted): the session configured by
`openlog("initd", LOG_PID | LOG_CONS, LOG_LOCAL0)` has no transport handle, yet `closelog`
does not leave it unchanged: identity, options and default facility are reset. -/
theorem closelog_without_handle_changes_state :
    ¬ (initdSession.logFile = none → (closelog initdSession).1 = initdSession) := by
  decide

/-- C7 (amended): `closelog` is idempotent and closes nothing when no transport is open:
for every session state `s`, `closelog` followed by `closelog` yields the same state as a
single `closelog` (and the second call has no effect); applied to a state `t` whose
transport handle is absent it has no effect on the transport and leaves the handle
absent, while identity, options and facilityDefault are reset to their defaults, so `t`
is left unchanged exactly when it already is the default session. -/
theorem closelog_idempotent (s t : LogSession) (ht : t.logFile = none) :
    (closelog (closelog s).1).1 = (closelog s).1 ∧ (closelog (closelog s).1).2 = [] ∧
      (closelog t).2 = [] ∧ (closelog t).1.logFile = none ∧
      (closelog t).1 = LogSession.initial ∧
      ((closelog t).1 = t ↔ t = LogSession.initial) := by
  have hreset : ∀ u : LogSession, u.logFile = none → closelog u = (LogSession.initial, []) := by
    intro u hu
    unfold closelog
    rw [hu]
  have h2 := hreset (closelog s).1 (closelog_counts s).2.2
  have hfst : ∀ u : LogSession, (closelog u).1 = LogSession.initial := by
    intro u
    unfold closelog
    split <;> rfl
  have ht2 := hreset t ht
  refine ⟨by rw [h2, hfst s], by rw [h2], by rw [ht2], by rw [ht2]; rfl, by rw [ht2], ?_⟩
  rw [ht2]
  exact ⟨fun h => h.symm, fun h => h.symm⟩

/-- C7 (amended) at a configured session, once holding descriptor 3 and once with no
handle. -/
theorem closelog_idempotent_witness :
    initdSession.logFile = none ∧
    ((closelog (closelog { initdSession with logFile := some 3 }).1).1
        = (closelog { initdSession with logFile := some 3 }).1 ∧
      (closelog (closelog { initdSession with logFile := some 3 }).1).2 = [] ∧
      (closelog initdSession).2 = [] ∧ (closelog initdSession).1.logFile = none ∧
      (closelog initdSession).1 = LogSession.initial ∧
      ((closelog initdSession).1 = initdSession ↔ initdSession = LogSession.initial)) :=
  ⟨rfl, closelog_idempotent { initdSession with logFile := some 3 } initdSession rfl⟩

/-- C8: the severity levels run in strictly increasing numeric order,
`LOG_EMERG < LOG_ALERT < LOG_CRIT < LOG_ERR < LOG_WARNING < LOG_NOTICE < LOG_INFO <
LOG_DEBUG`; each value is a power of two (`1 << k` for `k = 0..7`, in header order), and
the eight values are pairwise distinct. -/
theorem severities_increasing :
    LOG_EMERG < LOG_ALERT ∧ LOG_ALERT < LOG_CRIT ∧ LOG_CRIT < LOG_ERR ∧
      LOG_ERR < LOG_WARNING ∧ LOG_WARNING < LOG_NOTICE ∧ LOG_NOTICE < LOG_INFO ∧
      LOG_INFO < LOG_DEBUG ∧
      severities = (List.range 8).map (fun k => 1 <<< k) ∧
      severities = (List.range 8).map (fun k => 2 ^ k) ∧
      severities.Nodup := by
  decide

/-- C9: the option flags and the severity levels share numeric values:
`LOG_PID = LOG_EMERG`, `LOG_CONS = LOG_ALERT`, `LOG_NDELAY = LOG_CRIT`,
`LOG_ODELAY = LOG_ERR` and `LOG_NOWAIT = LOG_WARNING`; the five options are the first five
severities, so every option flag has a severity with the same integer value and the
OR of all options is the same integer as the OR of those severities. -/
theorem options_alias_severities :
    LOG_PID = LOG_EMERG ∧ LOG_CONS = LOG_ALERT ∧ LOG_NDELAY = LOG_CRIT ∧
      LOG_ODELAY = LOG_ERR ∧ LOG_NOWAIT = LOG_WARNING ∧
      logOptions = severities.take 5 ∧
      logOptions.all (fun g => severities.contains g) = true ∧
      orAll logOptions = orAll (severities.take 5) := by
  decide

/-- C10: every priority built from the header's constants fits in a 32-bit signed int
without overflow: the bitwise OR `p` of any collection `S` of severity and facility
constants satisfies `0 ≤ p ≤ 0x1FFFF` (= 131071 < 2^31); the OR of all seventeen constants
is exactly `0x1FFFF` (they are bits 0..16 in order, no bit used twice); and every
`1 << k` of the header has `k ≤ 16`, so no shift leaves the range of int. -/
theorem priority_fits_int32 (S : List Nat) (hS : ∀ x ∈ S, x ∈ priorityConstants) :
    0 ≤ orAll S ∧ orAll S ≤ 0x1FFFF ∧ (0x1FFFF : Nat) = 131071 ∧ orAll S < 2 ^ 31 ∧
      orAll priorityConstants = 0x1FFFF ∧
      priorityConstants = (List.range 17).map bit ∧
      priorityConstants.Pairwise (fun a b => a &&& b = 0) ∧
      headerConstants = headerShifts.map bit ∧
      headerShifts.all (fun k => decide (k ≤ 16)) = true ∧
      headerConstants.all (fun c => decide (c < 2 ^ 31)) = true := by
  have hlt : orAll S < 2 ^ 17 :=
    orAll_lt_two_pow 17 S (fun x hx => priorityConstants_lt x (hS x hx))
  refine ⟨Nat.zero_le _, ?_, by decide, ?_, by decide, by decide, by decide, by decide,
    by decide, by decide⟩
  · have : (2 : Nat) ^ 17 = 0x1FFFF + 1 := by decide
    omega
  · have : (2 : Nat) ^ 17 < 2 ^ 31 := by decide
    omega

/-- C10 at the priority `LOG_ERR | LOG_LOCAL3 | LOG_DEBUG`. -/
theorem priority_fits_int32_witness :
    (∀ x ∈ [LOG_ERR, LOG_LOCAL3, LOG_DEBUG], x ∈ priorityConstants) ∧
    (0 ≤ orAll [LOG_ERR, LOG_LOCAL3, LOG_DEBUG] ∧
      orAll [LOG_ERR, LOG_LOCAL3, LOG_DEBUG] ≤ 0x1FFFF ∧ (0x1FFFF : Nat) = 131071 ∧
      orAll [LOG_ERR, LOG_LOCAL3, LOG_DEBUG] < 2 ^ 31 ∧
      orAll priorityConstants = 0x1FFFF ∧
      priorityConstants = (List.range 17).map bit ∧
      priorityConstants.Pairwise (fun a b => a &&& b = 0) ∧
      headerConstants = headerShifts.map bit ∧
      headerShifts.all (fun k => decide (k ≤ 16)) = true ∧
      headerConstants.all (fun c => decide (c < 2 ^ 31)) = true) :=
  ⟨by decide, priority_fits_int32 [LOG_ERR, LOG_LOCAL3, LOG_DEBUG] (by decide)⟩

end Syslog
